import Mathlib

/-!
Shallow embedding of the ECE complaint-portal backend (Express + MongoDB,
`server.js`).  The two Mongo collections are modelled as Lean lists in
insertion order; each route handler becomes a pure function from the store
(and the request payload) to the response together with the new store.
`countDocuments` is list length, `insertMany`/`save` append,
`findOne` / `findOneAndUpdate` / `findOneAndDelete` act on the first
matching document, and a Mongoose update document is modelled as a patch
record of optional fields (`$set` semantics on exactly the fields present).
-/

namespace Portal

/-- A document of the `users` collection (`UserSchema`).  Fields the caller
omits are modelled as `""`; `isAdmin` defaults to `false` as in the schema. -/
structure User where
  id : String := ""
  role : String := ""
  name : String := ""
  email : String := ""
  pass : String := ""
  dept : String := ""
  year : String := ""
  enroll : String := ""
  isAdmin : Bool := false
deriving Repr, DecidableEq

/-- A document of the `complaints` collection (`ComplaintSchema`).  The
`history` and `chat` arrays hold uninterpreted entries, modelled as strings. -/
structure Complaint where
  id : String := ""
  studentId : String := ""
  studentName : String := ""
  category : String := ""
  title : String := ""
  description : String := ""
  attachment : String := ""
  isAnon : Bool := false
  status : String := ""
  assignedTo : String := ""
  history : List String := []
  chat : List String := []
  timestamp : String := ""
deriving Repr, DecidableEq

/-- The body of a `PUT /api/complaints/:id` request: a Mongoose update
document.  `none` means the field is absent from the request body, so
`findOneAndUpdate` leaves it untouched; `some v` means the field is
present and gets `$set` to `v`. -/
structure ComplaintPatch where
  id : Option String := none
  studentId : Option String := none
  studentName : Option String := none
  category : Option String := none
  title : Option String := none
  description : Option String := none
  attachment : Option String := none
  isAnon : Option Bool := none
  status : Option String := none
  assignedTo : Option String := none
  history : Option (List String) := none
  chat : Option (List String) := none
  timestamp : Option String := none
deriving Repr, DecidableEq

/-- Mongoose `$set` of the fields present in the update document onto one
stored complaint document. -/
def applyPatch (c : Complaint) (p : ComplaintPatch) : Complaint where
  id := p.id.getD c.id
  studentId := p.studentId.getD c.studentId
  studentName := p.studentName.getD c.studentName
  category := p.category.getD c.category
  title := p.title.getD c.title
  description := p.description.getD c.description
  attachment := p.attachment.getD c.attachment
  isAnon := p.isAnon.getD c.isAnon
  status := p.status.getD c.status
  assignedTo := p.assignedTo.getD c.assignedTo
  history := p.history.getD c.history
  chat := p.chat.getD c.chat
  timestamp := p.timestamp.getD c.timestamp

/-- The route handlers respond `res.json({ success: true })` on every
non-faulting path; store faults (the `catch` branches) are outside the
pure model. -/
inductive ApiResult
  | success
deriving Repr, DecidableEq

/-- Route `POST /api/complaints`: reads `count = Complaint.countDocuments()`,
allocates `newId = (count + 1).toString()`, saves
`new Complaint({ ...req.body, id: newId })` (any id in the spread request
body is overridden by the server-chosen id), and responds
`{ success: true, id: newId }`.  Returns the allocated id and the new
store. -/
def fileComplaint (store : List Complaint) (body : Complaint) :
    String × List Complaint :=
  let newId := toString (store.length + 1)
  (newId, store ++ [{ body with id := newId }])

/-- Effect of `Complaint.findOneAndUpdate({ id: cid }, body)`: patch the first
document whose `id` field equals `cid`; leave the store unchanged when no
document matches. -/
def updateFirst : List Complaint → String → ComplaintPatch → List Complaint
  | [], _, _ => []
  | c :: rest, cid, p =>
    if c.id = cid then applyPatch c p :: rest
    else c :: updateFirst rest cid p

/-- Route `PUT /api/complaints/:id`: `findOneAndUpdate({ id }, req.body)` then
respond `{ success: true }` whether or not a document matched. -/
def updateComplaint (store : List Complaint) (cid : String)
    (p : ComplaintPatch) : ApiResult × List Complaint :=
  (ApiResult.success, updateFirst store cid p)

/-- Effect of `Complaint.findOneAndDelete({ id: cid })`: remove the first document
whose `id` field equals `cid`; leave the store unchanged when no document
matches. -/
def deleteFirst : List Complaint → String → List Complaint
  | [], _ => []
  | c :: rest, cid =>
    if c.id = cid then rest
    else c :: deleteFirst rest cid

/-- Route `DELETE /api/complaints/:id`: `findOneAndDelete({ id })` then respond
`{ success: true }` whether or not a document matched. -/
def deleteComplaint (store : List Complaint) (cid : String) :
    ApiResult × List Complaint :=
  (ApiResult.success, deleteFirst store cid)

/-- Response of `POST /api/login`: the matched user as JSON, or the 401
`{ error: 'Invalid credentials' }` body. -/
inductive LoginResult
  | success (u : User)
  | invalidCredentials
deriving Repr, DecidableEq

/-- Route `POST /api/login`: `User.findOne({ email, pass })` — the first stored
user whose `email` and `pass` fields both equal the request's — answered
as the user document, else a 401 error. -/
def authenticate (store : List User) (email pass : String) : LoginResult :=
  match store.find? (fun u => u.email == email && u.pass == pass) with
  | some u => LoginResult.success u
  | none => LoginResult.invalidCredentials

/-- Response of `POST /api/register`: `{ success: true }`, or the 400
`{ error: 'Email likely already exists' }` raised when `save()` violates
the unique index on `email`. -/
inductive RegisterResult
  | success
  | emailExists
deriving Repr, DecidableEq

/-- Route `POST /api/register`: `new User(req.body).save()`.  The unique index
on `email` makes `save` throw when a stored user already has the body's
email, leaving the collection unchanged; otherwise the document is
inserted. -/
def register (store : List User) (body : User) :
    RegisterResult × List User :=
  if store.any (fun u => u.email == body.email) then
    (RegisterResult.emailExists, store)
  else
    (RegisterResult.success, store ++ [body])

/-- The three demo accounts of `seedUsers` (fields absent from the literal
default to `""` / `false` per the schema). -/
def demoUsers : List User :=
  [ { role := "teacher", name := "Dr. Smith", email := "teacher1@example.com",
      pass := "pass123", id := "T01", dept := "CSE" },
    { role := "teacher", name := "Prof. Jones", email := "teacher2@example.com",
      pass := "pass123", id := "T02", dept := "CSE" },
    { role := "hod", name := "Head of Department",
      email := "ecedepartment100@gmail.com", pass := "Secure@123", id := "H01",
      dept := "CSE", isAdmin := true } ]

/-- Function `seedUsers()`: if `User.countDocuments()` is `0`, `insertMany` the
three demo accounts; otherwise do nothing. -/
def seedUsers (store : List User) : List User :=
  if store.length = 0 then store ++ demoUsers else store

/-- The year progression of `POST /api/users/promote-all`: the
`if`/`else if` chain computing `newYear` from `student.year`. -/
def nextYear (year : String) : String :=
  if year = "1" then "2"
  else if year = "2" then "3"
  else if year = "3" then "4"
  else if year = "4" then "Graduated"
  else year

/-- Route `POST /api/users/promote-all`: collect `User.find({ role: 'student' })`,
build one bulk `updateOne` op (filtered by the document's unique `_id`,
setting `year` to `newYear`) for each student whose year changes, run
`bulkWrite` on those ops, and respond `{ success: true, count: bulkOps.length }`.
Because every op targets a distinct document by `_id`, the `bulkWrite` is
the pointwise update below.  Returns the new store and the count. -/
def promoteAll (users : List User) : List User × Nat :=
  let bulkOps := (users.filter fun u => u.role == "student").filterMap
    (fun s => if nextYear s.year ≠ s.year then some (s.id, nextYear s.year)
              else none)
  let updated := users.map fun u =>
    if u.role = "student" ∧ nextYear u.year ≠ u.year then
      { u with year := nextYear u.year }
    else u
  (updated, bulkOps.length)

/-- One client request against the complaints collection, for reasoning
about sequences of filings and deletions. -/
inductive ComplaintOp
  | file (body : Complaint)
  | delete (cid : String)
deriving Repr, DecidableEq

/-- State threaded through a run of complaint operations: the store, the
ids the server allocated to filings (in order), and the ids carried by
complaints that a deletion actually removed. -/
structure RunState where
  store : List Complaint := []
  allocated : List String := []
  deleted : List String := []
deriving Repr, DecidableEq

/-- Execute one complaint operation against the run state. -/
def step (s : RunState) : ComplaintOp → RunState
  | ComplaintOp.file body =>
    let r := fileComplaint s.store body
    { s with store := r.2, allocated := s.allocated ++ [r.1] }
  | ComplaintOp.delete cid =>
    match s.store.find? (fun c => c.id == cid) with
    | some c =>
      { s with store := (deleteComplaint s.store cid).2,
               deleted := s.deleted ++ [c.id] }
    | none => s

/-- Execute a sequence of complaint operations from the empty store. -/
def run (ops : List ComplaintOp) : RunState :=
  ops.foldl step {}

end Portal

/-- C1: `file_complaint` allocates the new complaint's id server-side as the
string form of (current number of stored complaints + 1); filing two
complaints into an initially empty store yields ids "1" then "2". -/
theorem fileComplaint_id_allocation (store : List Portal.Complaint)
    (b₁ b₂ : Portal.Complaint) :
    (Portal.fileComplaint store b₁).1 = toString (store.length + 1)
    ∧ (Portal.fileComplaint [] b₁).1 = "1"
    ∧ (Portal.fileComplaint (Portal.fileComplaint [] b₁).2 b₂).1 = "2" := by
  refine ⟨rfl, rfl, ?_⟩
  simp only [Portal.fileComplaint, List.nil_append, List.length_singleton]
  decide

lemma updateFirst_no_match (store : List Portal.Complaint) (cid : String)
    (p : Portal.ComplaintPatch) (h : ∀ c ∈ store, c.id ≠ cid) :
    Portal.updateFirst store cid p = store := by
  induction store with
  | nil => rfl
  | cons c rest ih =>
    simp only [Portal.updateFirst]
    rw [if_neg (h c (List.mem_cons_self c rest)),
      ih fun c' hc' => h c' (List.mem_cons_of_mem c hc')]

lemma updateFirst_append (pre post : List Portal.Complaint)
    (c : Portal.Complaint) (p : Portal.ComplaintPatch)
    (hpre : ∀ c' ∈ pre, c'.id ≠ c.id) :
    Portal.updateFirst (pre ++ c :: post) c.id p
      = pre ++ Portal.applyPatch c p :: post := by
  induction pre with
  | nil => simp [Portal.updateFirst]
  | cons a rest ih =>
    simp only [List.cons_append, Portal.updateFirst, List.append_eq]
    rw [if_neg (hpre a (List.mem_cons_self a rest)),
      ih fun c' hc' => hpre c' (List.mem_cons_of_mem a hc')]

lemma deleteFirst_no_match (store : List Portal.Complaint) (cid : String)
    (h : ∀ c ∈ store, c.id ≠ cid) :
    Portal.deleteFirst store cid = store := by
  induction store with
  | nil => rfl
  | cons c rest ih =>
    simp only [Portal.deleteFirst]
    rw [if_neg (h c (List.mem_cons_self c rest)),
      ih fun c' hc' => h c' (List.mem_cons_of_mem c hc')]

lemma deleteFirst_append (pre post : List Portal.Complaint)
    (c : Portal.Complaint) (hpre : ∀ c' ∈ pre, c'.id ≠ c.id) :
    Portal.deleteFirst (pre ++ c :: post) c.id = pre ++ post := by
  induction pre with
  | nil => simp [Portal.deleteFirst]
  | cons a rest ih =>
    simp only [List.cons_append, Portal.deleteFirst, List.append_eq]
    rw [if_neg (hpre a (List.mem_cons_self a rest)),
      ih fun c' hc' => hpre c' (List.mem_cons_of_mem a hc')]

/-- C10: `file_complaint` ignores any caller-supplied id: the stored
complaint's id is always the server-allocated `(count + 1)` string, and the
whole outcome is unchanged if the request body's id field is replaced by an
arbitrary string. -/
theorem fileComplaint_ignores_caller_id (store : List Portal.Complaint)
    (body : Portal.Complaint) (s : String) :
    (Portal.fileComplaint store body).2
      = store ++ [{ body with id := toString (store.length + 1) }]
    ∧ Portal.fileComplaint store { body with id := s }
      = Portal.fileComplaint store body := by
  exact ⟨rfl, rfl⟩

/-- C7: `update_complaint` on an id matching no stored complaint returns the
success response and leaves the complaint store completely unchanged
(silent no-op, neither error nor upsert). -/
theorem updateComplaint_missing_id (store : List Portal.Complaint)
    (cid : String) (p : Portal.ComplaintPatch)
    (habs : ∀ c ∈ store, c.id ≠ cid) :
    Portal.updateComplaint store cid p = (Portal.ApiResult.success, store) := by
  unfold Portal.updateComplaint
  rw [updateFirst_no_match store cid p habs]

/-- Witness for C7 at a concrete store: updating id "2" in a store holding
only id "1" succeeds and changes nothing. -/
theorem updateComplaint_missing_id_witness :
    Portal.updateComplaint [{ id := "1" }] "2" { status := some "Resolved" }
      = (Portal.ApiResult.success, [{ id := "1" }]) :=
  updateComplaint_missing_id [{ id := "1" }] "2" { status := some "Resolved" }
    (by decide)

/-- C8: `update_complaint` on an existing complaint patches exactly the
fields present in the request body — every absent field keeps its stored
value and every present field takes the patch value — and every other
complaint record in the store is unchanged. -/
theorem updateComplaint_existing (pre post : List Portal.Complaint)
    (c : Portal.Complaint) (p : Portal.ComplaintPatch)
    (hpre : ∀ c' ∈ pre, c'.id ≠ c.id) :
    Portal.updateComplaint (pre ++ c :: post) c.id p
      = (Portal.ApiResult.success, pre ++ Portal.applyPatch c p :: post)
    ∧ (p.id = none → (Portal.applyPatch c p).id = c.id)
    ∧ (p.studentId = none → (Portal.applyPatch c p).studentId = c.studentId)
    ∧ (p.studentName = none →
        (Portal.applyPatch c p).studentName = c.studentName)
    ∧ (p.category = none → (Portal.applyPatch c p).category = c.category)
    ∧ (p.title = none → (Portal.applyPatch c p).title = c.title)
    ∧ (p.description = none →
        (Portal.applyPatch c p).description = c.description)
    ∧ (p.attachment = none → (Portal.applyPatch c p).attachment = c.attachment)
    ∧ (p.isAnon = none → (Portal.applyPatch c p).isAnon = c.isAnon)
    ∧ (p.status = none → (Portal.applyPatch c p).status = c.status)
    ∧ (p.assignedTo = none → (Portal.applyPatch c p).assignedTo = c.assignedTo)
    ∧ (p.history = none → (Portal.applyPatch c p).history = c.history)
    ∧ (p.chat = none → (Portal.applyPatch c p).chat = c.chat)
    ∧ (p.timestamp = none → (Portal.applyPatch c p).timestamp = c.timestamp)
    ∧ (∀ v, p.id = some v → (Portal.applyPatch c p).id = v)
    ∧ (∀ v, p.studentId = some v → (Portal.applyPatch c p).studentId = v)
    ∧ (∀ v, p.studentName = some v → (Portal.applyPatch c p).studentName = v)
    ∧ (∀ v, p.category = some v → (Portal.applyPatch c p).category = v)
    ∧ (∀ v, p.title = some v → (Portal.applyPatch c p).title = v)
    ∧ (∀ v, p.description = some v → (Portal.applyPatch c p).description = v)
    ∧ (∀ v, p.attachment = some v → (Portal.applyPatch c p).attachment = v)
    ∧ (∀ v, p.isAnon = some v → (Portal.applyPatch c p).isAnon = v)
    ∧ (∀ v, p.status = some v → (Portal.applyPatch c p).status = v)
    ∧ (∀ v, p.assignedTo = some v → (Portal.applyPatch c p).assignedTo = v)
    ∧ (∀ v, p.history = some v → (Portal.applyPatch c p).history = v)
    ∧ (∀ v, p.chat = some v → (Portal.applyPatch c p).chat = v)
    ∧ (∀ v, p.timestamp = some v → (Portal.applyPatch c p).timestamp = v) := by
  refine ⟨?_, ?_, ?_, ?_, ?_, ?_, ?_, ?_, ?_, ?_, ?_, ?_, ?_, ?_, ?_, ?_, ?_,
    ?_, ?_, ?_, ?_, ?_, ?_, ?_, ?_, ?_, ?_⟩
  · unfold Portal.updateComplaint
    rw [updateFirst_append pre post c p hpre]
  all_goals first
    | (intro h; simp [Portal.applyPatch, h])
    | (intro v h; simp [Portal.applyPatch, h])

/-- Witness for C8: patching status and assignedTo of the only stored
complaint updates those two fields and leaves history and chat untouched. -/
theorem updateComplaint_existing_witness :
    Portal.updateComplaint
        [{ id := "1", history := ["filed"], chat := ["hello"] }] "1"
        { status := some "Resolved", assignedTo := some "T01" }
      = (Portal.ApiResult.success,
         [{ id := "1", status := "Resolved", assignedTo := "T01",
            history := ["filed"], chat := ["hello"] }]) := by
  have h := (updateComplaint_existing [] []
    { id := "1", history := ["filed"], chat := ["hello"] }
    { status := some "Resolved", assignedTo := some "T01" }
    (by simp)).1
  simpa [Portal.applyPatch] using h

/-- C9: `delete_complaint` removes the matching record — its embedded
`history` and `chat` leave with it, and no record carrying that id remains
in the store — and is a silent no-op when no complaint has that id. -/
theorem deleteComplaint_spec (pre post : List Portal.Complaint)
    (c : Portal.Complaint)
    (hpre : ∀ c' ∈ pre, c'.id ≠ c.id)
    (hpost : ∀ c' ∈ post, c'.id ≠ c.id) :
    Portal.deleteComplaint (pre ++ c :: post) c.id
      = (Portal.ApiResult.success, pre ++ post)
    ∧ (∀ c' ∈ pre ++ post, c'.id ≠ c.id)
    ∧ (∀ (store : List Portal.Complaint) (cid : String),
        (∀ c' ∈ store, c'.id ≠ cid) →
        Portal.deleteComplaint store cid = (Portal.ApiResult.success, store)) := by
  refine ⟨?_, ?_, ?_⟩
  · unfold Portal.deleteComplaint
    rw [deleteFirst_append pre post c hpre]
  · intro c' hc'
    rcases List.mem_append.1 hc' with h | h
    · exact hpre c' h
    · exact hpost c' h
  · intro store cid h
    unfold Portal.deleteComplaint
    rw [deleteFirst_no_match store cid h]

/-- Witness for C9: deleting id "1" from a two-complaint store removes the
record together with its history and chat entries. -/
theorem deleteComplaint_spec_witness :
    Portal.deleteComplaint
        [{ id := "1", history := ["filed"], chat := ["hi"] }, { id := "2" }] "1"
      = (Portal.ApiResult.success, [{ id := "2" }]) := by
  have h := (deleteComplaint_spec []
    [{ id := "2" }] { id := "1", history := ["filed"], chat := ["hi"] }
    (by simp) (by decide)).1
  simpa using h

/-- C4: the startup seed inserts exactly the three fixed demo accounts (two
teachers, one hod) iff the user collection is empty, and a second run on the
now non-empty store leaves the user count unchanged. -/
theorem seedUsers_spec (store : List Portal.User) :
    (store = [] → Portal.seedUsers store = Portal.demoUsers)
    ∧ (store ≠ [] → Portal.seedUsers store = store)
    ∧ Portal.demoUsers.map Portal.User.role = ["teacher", "teacher", "hod"]
    ∧ (Portal.seedUsers (Portal.seedUsers store)).length
        = (Portal.seedUsers store).length := by
  refine ⟨?_, ?_, by decide, ?_⟩
  · intro h
    subst h
    rfl
  · intro h
    unfold Portal.seedUsers
    rw [if_neg (by simpa using h)]
  · by_cases h : store = []
    · subst h
      rfl
    · have h1 : Portal.seedUsers store = store := by
        unfold Portal.seedUsers
        rw [if_neg (by simpa using h)]
      rw [h1, h1]

/-- Witness for C4 at concrete stores: seeding the empty store yields the
three demo accounts and re-seeding does not change the count. -/
theorem seedUsers_spec_witness :
    Portal.seedUsers [] = Portal.demoUsers
    ∧ Portal.seedUsers [{ email := "x@y.z" }] = [{ email := "x@y.z" }]
    ∧ (Portal.seedUsers (Portal.seedUsers [])).length
        = (Portal.seedUsers []).length :=
  ⟨(seedUsers_spec []).1 rfl,
   (seedUsers_spec [{ email := "x@y.z" }]).2.1 (by decide),
   (seedUsers_spec []).2.2.2⟩

lemma find_credentials_eq (store : List Portal.User) (u : Portal.User)
    (e p : String) (hnd : (store.map Portal.User.email).Nodup)
    (hu : u ∈ store) (he : u.email = e) (hp : u.pass = p) :
    store.find? (fun v => v.email == e && v.pass == p) = some u := by
  induction store with
  | nil => cases hu
  | cons v rest ih =>
    rw [List.map_cons, List.nodup_cons] at hnd
    by_cases hv : v.email = e ∧ v.pass = p
    · have hveq : v = u := by
        rcases List.mem_cons.1 hu with h | h
        · exact h.symm
        · exfalso
          apply hnd.1
          have hmem : u.email ∈ List.map Portal.User.email rest :=
            List.mem_map_of_mem Portal.User.email h
          rw [he, ← hv.1] at hmem
          exact hmem
      rw [List.find?_cons_of_pos _ (by simp [hv.1, hv.2]), hveq]
    · have hvu : u ≠ v := by
        intro h
        exact hv (h ▸ ⟨he, hp⟩)
      have hu' : u ∈ rest := by
        rcases List.mem_cons.1 hu with h | h
        · exact absurd h hvu
        · exact h
      rw [List.find?_cons_of_neg _ (by simpa using fun h1 h2 => hv ⟨h1, h2⟩)]
      exact ih hnd.2 hu'

/-- C5: `authenticate(email, pass)` returns the unique stored user whose
`email` and `pass` fields both equal the inputs when one exists (unique
because stored emails are pairwise distinct), and answers the 401
Unauthorized error otherwise. -/
theorem authenticate_spec (store : List Portal.User) (e p : String)
    (hnd : (store.map Portal.User.email).Nodup) :
    (∀ u ∈ store, u.email = e → u.pass = p →
        Portal.authenticate store e p = Portal.LoginResult.success u
        ∧ ∀ v ∈ store, v.email = e → v.pass = p → v = u)
    ∧ ((∀ u ∈ store, ¬(u.email = e ∧ u.pass = p)) →
        Portal.authenticate store e p = Portal.LoginResult.invalidCredentials) := by
  constructor
  · intro u hu he hp
    constructor
    · unfold Portal.authenticate
      rw [find_credentials_eq store u e p hnd hu he hp]
    · intro v hv hve hvp
      exact List.inj_on_of_nodup_map hnd hv hu (hve.trans he.symm)
  · intro h
    unfold Portal.authenticate
    rw [List.find?_eq_none.2 fun v hv => by
      simpa using fun h1 h2 => h v hv ⟨h1, h2⟩]

/-- Witness for C5: logging in with the first demo teacher's credentials
returns that user; a wrong password is rejected with the 401 error. -/
theorem authenticate_spec_witness :
    Portal.authenticate Portal.demoUsers "teacher1@example.com" "pass123"
      = Portal.LoginResult.success
          { role := "teacher", name := "Dr. Smith",
            email := "teacher1@example.com", pass := "pass123", id := "T01",
            dept := "CSE" }
    ∧ Portal.authenticate Portal.demoUsers "teacher1@example.com" "wrong"
      = Portal.LoginResult.invalidCredentials :=
  ⟨((authenticate_spec Portal.demoUsers "teacher1@example.com" "pass123"
      (by decide)).1 _ (by decide) rfl rfl).1,
   (authenticate_spec Portal.demoUsers "teacher1@example.com" "wrong"
      (by decide)).2 (by decide)⟩

/-- C6: registering a body whose email equals a stored user's email fails
with the duplicate-email error and leaves the store unchanged, and
`register` preserves the all-emails-distinct invariant in every case. -/
theorem register_spec (store : List Portal.User) (body : Portal.User) :
    ((∃ u ∈ store, u.email = body.email) →
        Portal.register store body = (Portal.RegisterResult.emailExists, store))
    ∧ ((store.map Portal.User.email).Nodup →
        ((Portal.register store body).2.map Portal.User.email).Nodup) := by
  constructor
  · intro ⟨u, hu, he⟩
    unfold Portal.register
    rw [if_pos (List.any_eq_true.2 ⟨u, hu, by simpa using he⟩)]
  · intro hnd
    unfold Portal.register
    by_cases h : store.any (fun u => u.email == body.email)
    · rw [if_pos h]
      exact hnd
    · rw [if_neg h]
      have habs : body.email ∉ store.map Portal.User.email := by
        intro hmem
        rcases List.mem_map.1 hmem with ⟨u, hu, he⟩
        exact h (List.any_eq_true.2 ⟨u, hu, by simpa using he⟩)
      simp only [List.map_append, List.map_cons, List.map_nil]
      rw [List.nodup_append]
      exact ⟨hnd, List.nodup_singleton _,
        by simpa [List.disjoint_singleton] using habs⟩

/-- Witness for C6: registering a second user with the seeded teacher's
email fails and leaves the seeded store unchanged. -/
theorem register_spec_witness :
    Portal.register Portal.demoUsers
        { name := "Eve", email := "teacher1@example.com" }
      = (Portal.RegisterResult.emailExists, Portal.demoUsers) :=
  (register_spec Portal.demoUsers
      { name := "Eve", email := "teacher1@example.com" }).1
    ⟨{ role := "teacher", name := "Dr. Smith", email := "teacher1@example.com",
       pass := "pass123", id := "T01", dept := "CSE" }, by decide, rfl⟩

lemma promoteAll_count (users : List Portal.User) :
    (Portal.promoteAll users).2
      = (users.filter fun u => u.role == "student"
          && Portal.nextYear u.year != u.year).length := by
  induction users with
  | nil => rfl
  | cons u rest ih =>
    simp only [Portal.promoteAll] at ih ⊢
    by_cases h1 : u.role = "student"
    · by_cases h2 : Portal.nextYear u.year = u.year
      · simp [List.filter_cons, h1, h2]
        simpa using ih
      · simp [List.filter_cons, h1, h2]
        simpa using ih
    · simp [List.filter_cons, h1]
      simpa using ih

/-- C3: `promote_all_students` advances each student's year through the
fixed progression 1→2, 2→3, 3→4, 4→Graduated, leaves every other year
value (including "Graduated" and empty) and every non-student unchanged,
and returns exactly the number of users whose year changed. -/
theorem promoteAll_spec (users : List Portal.User) (y : String) :
    (Portal.promoteAll users).1
      = users.map (fun u =>
          if u.role = "student" then { u with year := Portal.nextYear u.year }
          else u)
    ∧ Portal.nextYear "1" = "2" ∧ Portal.nextYear "2" = "3"
    ∧ Portal.nextYear "3" = "4" ∧ Portal.nextYear "4" = "Graduated"
    ∧ (y ∉ (["1", "2", "3", "4"] : List String) → Portal.nextYear y = y)
    ∧ (Portal.promoteAll users).2
      = (users.filter fun u => u.role == "student"
          && Portal.nextYear u.year != u.year).length := by
  refine ⟨?_, by decide, by decide, by decide, by decide, ?_,
    promoteAll_count users⟩
  · simp only [Portal.promoteAll]
    refine List.map_congr_left fun u _ => ?_
    by_cases h1 : u.role = "student"
    · by_cases h2 : Portal.nextYear u.year = u.year
      · simp only [h1, h2, ne_eq, not_true_eq_false, and_false, if_false,
          if_true, true_and, eq_self_iff_true, ite_true, ite_false]
        rw [← h1]
      · simp [h1, h2]
    · simp [h1]
  · intro h
    simp only [List.mem_cons, List.not_mem_nil, or_false, not_or] at h
    obtain ⟨h1, h2, h3, h4⟩ := h
    simp [Portal.nextYear, h1, h2, h3, h4]

/-- Witness for C3 on a concrete roster: years 3, 4, Graduated and a
teacher; two users change, the graduate and the teacher do not. -/
theorem promoteAll_spec_witness :
    (Portal.promoteAll
        [{ role := "student", year := "3", id := "S1" },
         { role := "student", year := "4", id := "S2" },
         { role := "student", year := "Graduated", id := "S3" },
         { role := "teacher", id := "T01" }]).1
      = [{ role := "student", year := "4", id := "S1" },
         { role := "student", year := "Graduated", id := "S2" },
         { role := "student", year := "Graduated", id := "S3" },
         { role := "teacher", id := "T01" }]
    ∧ Portal.nextYear "Graduated" = "Graduated"
    ∧ (Portal.promoteAll
        [{ role := "student", year := "3", id := "S1" },
         { role := "student", year := "4", id := "S2" },
         { role := "student", year := "Graduated", id := "S3" },
         { role := "teacher", id := "T01" }]).2 = 2 := by
  have h := promoteAll_spec
    [{ role := "student", year := "3", id := "S1" },
     { role := "student", year := "4", id := "S2" },
     { role := "student", year := "Graduated", id := "S3" },
     { role := "teacher", id := "T01" }] "Graduated"
  refine ⟨?_, h.2.2.2.2.2.1 (by decide), ?_⟩
  · rw [h.1]
    decide
  · rw [h.2.2.2.2.2.2]
    decide

lemma range_map_numeral_shift (len n : Nat) :
    (List.range (n + 1)).map (fun j => toString (len + j + 1))
      = toString (len + 1)
          :: (List.range n).map (fun j => toString (len + 1 + j + 1)) := by
  rw [List.range_succ_eq_map, List.map_cons, List.map_map]
  congr 1
  apply List.map_congr_left
  intro j _
  simp only [Function.comp_apply]
  congr 1
  omega

lemma run_files_step (ops : List Portal.ComplaintOp) (s : Portal.RunState)
    (h : ∀ op ∈ ops, ∃ b, op = Portal.ComplaintOp.file b) :
    (ops.foldl Portal.step s).allocated
      = s.allocated ++ (List.range ops.length).map
          (fun j => toString (s.store.length + j + 1))
    ∧ (ops.foldl Portal.step s).store.length = s.store.length + ops.length
    ∧ (ops.foldl Portal.step s).deleted = s.deleted := by
  induction ops generalizing s with
  | nil => simp
  | cons op rest ih =>
    obtain ⟨b, rfl⟩ := h op (List.mem_cons_self op rest)
    have hrest : ∀ o ∈ rest, ∃ b, o = Portal.ComplaintOp.file b :=
      fun o ho => h o (List.mem_cons_of_mem _ ho)
    obtain ⟨ha, hl, hd⟩ := ih (Portal.step s (Portal.ComplaintOp.file b)) hrest
    have hstep_alloc : (Portal.step s (Portal.ComplaintOp.file b)).allocated
        = s.allocated ++ [toString (s.store.length + 1)] := rfl
    have hstep_len : (Portal.step s (Portal.ComplaintOp.file b)).store.length
        = s.store.length + 1 := by
      simp [Portal.step, Portal.fileComplaint]
    have hstep_del : (Portal.step s (Portal.ComplaintOp.file b)).deleted
        = s.deleted := rfl
    refine ⟨?_, ?_, ?_⟩
    · rw [List.foldl_cons, ha, hstep_alloc, hstep_len, List.append_assoc]
      congr 1
      rw [List.length_cons, range_map_numeral_shift s.store.length rest.length,
        List.singleton_append]
    · rw [List.foldl_cons, hl, hstep_len, List.length_cons]
      omega
    · rw [List.foldl_cons, hd, hstep_del]

/-- C2 counterexample: from the empty store, filing a complaint (which gets
id "1"), deleting it, and filing again allocates id "1" — exactly the id
the deleted complaint carried. -/
theorem complaintId_reuse_counterexample :
    ((Portal.fileComplaint
        (Portal.run [Portal.ComplaintOp.file {},
                     Portal.ComplaintOp.delete "1"]).store {}).1
      ∈ (Portal.run [Portal.ComplaintOp.file {},
                     Portal.ComplaintOp.delete "1"]).deleted) := by
  decide

/-- C2 amended: each filing is allocated the string form of (current stored
count + 1); in a run of filings with no deletions starting from the empty
store, the k-th filing therefore receives the decimal numeral of k and no
deleted id exists to collide with — but once deletions occur, a newly filed
complaint can be allocated an id that a previously deleted complaint
carried. -/
theorem complaintId_allocation_amended (ops : List Portal.ComplaintOp)
    (h : ∀ op ∈ ops, ∃ b, op = Portal.ComplaintOp.file b) :
    (Portal.run ops).allocated
      = (List.range ops.length).map (fun j => toString (j + 1))
    ∧ (Portal.run ops).deleted = [] := by
  obtain ⟨ha, -, hd⟩ := run_files_step ops {} h
  constructor
  · simpa [Portal.run] using ha
  · simpa [Portal.run] using hd

/-- Witness for the amended C2 at a concrete run: two filings from the
empty store are allocated ids "1" and "2" and nothing is deleted. -/
theorem complaintId_allocation_amended_witness :
    (Portal.run [Portal.ComplaintOp.file {},
                 Portal.ComplaintOp.file {}]).allocated
      = (List.range 2).map (fun j => toString (j + 1))
    ∧ (Portal.run [Portal.ComplaintOp.file {},
                   Portal.ComplaintOp.file {}]).deleted = [] := by
  refine complaintId_allocation_amended _ ?_
  intro op hop
  rcases List.mem_cons.1 hop with h | h
  · exact ⟨{}, h⟩
  · rcases List.mem_cons.1 h with h' | h'
    · exact ⟨{}, h'⟩
    · exact absurd h' (List.not_mem_nil op)
